import Mathlib

/-!
Verification of the unity-mcp transport core against its specification.

The Python source is shallowly embedded: bytes are naturals below 256,
streams are lists of bytes (a list end models the peer closing the
connection), fallible operations return `Option`/`Except`, and the
effectful retry loops are modelled as pure recursions over a script of
network outcomes, returning the result together with a trace of the
actions (sleeps, socket drops, port rediscoveries) the code performs.
-/

set_option autoImplicit false

/-! ## Byte-level helpers shared by several components -/

/-- A byte is a natural number; encoders only ever produce values < 256. -/
abbrev Byte := Nat

/-- Decode of `bytes.decode('ascii', errors='ignore')`: bytes ≥ 128 are dropped. -/
def decodeAsciiIgnore (bs : List Byte) : List Char :=
  (bs.filter (fun b => b < 128)).map Char.ofNat

/-- ASCII bytes of a (pure-ASCII) string literal. -/
def asciiBytes (s : String) : List Byte :=
  s.toList.map Char.toNat

/-- Whether `n` occurs as a prefix of `h` (over arbitrary decidable-eq lists). -/
def listStartsWith {α : Type} [DecidableEq α] : List α → List α → Bool
  | [], _ => true
  | _ :: _, [] => false
  | a :: n, b :: h => a = b && listStartsWith n h

/-- Whether `n` occurs as a contiguous sublist of `h` (Python `in` on bytes/str). -/
def listContainsSub {α : Type} [DecidableEq α] (n : List α) : List α → Bool
  | [] => listStartsWith n []
  | b :: h => listStartsWith n (b :: h) || listContainsSub n h

namespace UnityConnection

/-! ## Framed transport (unity_connection.py) -/

/-- The sanity ceiling on a declared frame length: 64 MiB. -/
def MAX_FRAMED_LEN : Nat := 64 * 1024 * 1024

/-- `struct.pack('>Q', n)`: the 8-byte big-endian encoding of `n`. -/
def packU64BE (n : Nat) : List Byte :=
  [n / 2 ^ 56 % 256, n / 2 ^ 48 % 256, n / 2 ^ 40 % 256, n / 2 ^ 32 % 256,
   n / 2 ^ 24 % 256, n / 2 ^ 16 % 256, n / 2 ^ 8 % 256, n % 256]

/-- `struct.unpack('>Q', bs)[0]` on an 8-byte big-endian buffer. -/
def unpackU64BE (bs : List Byte) : Nat :=
  bs.foldl (fun acc b => acc * 256 + b) 0

/-- Framed send: the 8-byte length header followed by the payload
(`sock.sendall(header)` then `sock.sendall(payload)`). -/
def framedSend (payload : List Byte) : List Byte :=
  packU64BE payload.length ++ payload

/-- `_read_exact(sock, count)` over a stream that closes at list end: returns
the bytes read and the remaining stream, or `none` when the connection closes
before `count` bytes arrive (the code raises in that case). -/
def readExact (stream : List Byte) (count : Nat) : Option (List Byte × List Byte) :=
  if stream.length < count then none
  else some (stream.take count, stream.drop count)

/-- Result of the framed branch of `receive_full_response`. -/
inductive FrameResult where
  /-- a full payload was read; carries the unread remainder of the stream -/
  | ok (payload rest : List Byte)
  /-- the declared length was 0 or above the ceiling; raised before any
  payload byte is read, so the stream past the header is carried untouched -/
  | invalidLength (declared : Nat) (rest : List Byte)
  /-- the connection closed before the expected byte count arrived -/
  | closedEarly
  deriving Repr, DecidableEq

/-- The framed branch of `receive_full_response`: read exactly 8 header bytes,
reject a declared length of 0 or above 64 MiB, then read exactly that many
payload bytes. -/
def receiveFramed (stream : List Byte) : FrameResult :=
  match readExact stream 8 with
  | none => .closedEarly
  | some (header, rest) =>
    let payload_len := unpackU64BE header
    if payload_len = 0 then .invalidLength 0 rest
    else if payload_len > MAX_FRAMED_LEN then .invalidLength payload_len rest
    else
      match readExact rest payload_len with
      | none => .closedEarly
      | some (payload, rest2) => .ok payload rest2

end UnityConnection

namespace PortDiscovery

/-! ## Port discovery (port_discovery.py) -/

/-- Hard-coded fallback port. -/
def DEFAULT_PORT : Int := 6400

/-- Content of one candidate registry file, as the scan loop distinguishes it:
the file failed to open/parse (an exception is caught and the file skipped),
it parsed but `unity_port` is absent or not an `int` (skipped, and not
remembered as first-seen), or it declares the integer port `p`. -/
inductive CandContent where
  | unreadable
  | noIntPort
  | port (p : Int)
  deriving Repr, DecidableEq

/-- Content of the newest `unity-mcp-status-*.json` file: `unity_port` is
`some p` when the key is present with an `int` value, else `none`
(`_read_latest_status` returning `None` is modelled by `Option` at use site). -/
structure StatusContent where
  unity_port : Option Int
  deriving Repr, DecidableEq

/-- Stable insertion into a list sorted by modification time, newest first
(models Python's stable `sorted(..., key=mtime, reverse=True)`). -/
def insertByMtimeDesc (x : Int × CandContent) :
    List (Int × CandContent) → List (Int × CandContent)
  | [] => [x]
  | y :: ys => if y.1 ≥ x.1 then y :: insertByMtimeDesc x ys else x :: y :: ys

/-- Sort per-instance registry files newest-first by mtime (stably). -/
def sortByMtimeDesc (l : List (Int × CandContent)) : List (Int × CandContent) :=
  l.foldr insertByMtimeDesc []

/-- `list_candidate_files`: hashed per-project files newest-first, then the
legacy file (if it exists) appended last. -/
def list_candidate_files (hashed : List (Int × CandContent))
    (legacy : Option CandContent) : List CandContent :=
  (sortByMtimeDesc hashed).map Prod.snd ++ legacy.toList

/-- The status fast path of `discover_unity_port`: if the latest status file
exists, names an integer `unity_port` and that port probes alive, it is used
immediately. -/
def statusFastPath (status : Option StatusContent) (probe : Int → Bool) : Option Int :=
  match status with
  | none => none
  | some s =>
    match s.unity_port with
    | some p => if probe p then some p else none
    | none => none

/-- The candidate scan loop of `discover_unity_port`: remember the first
integer port parsed, return the first one whose probe succeeds, else the
first-seen value, else the default. -/
def scanCandidates (probe : Int → Bool) :
    List CandContent → Option Int → Int
  | [], firstSeen => firstSeen.getD DEFAULT_PORT
  | c :: cs, firstSeen =>
    match c with
    | .port p =>
      let fs := match firstSeen with
        | none => some p
        | some q => some q
      if probe p then p else scanCandidates probe cs fs
    | _ => scanCandidates probe cs firstSeen

/-- `discover_unity_port`, as a function of the on-disk registry state and the
liveness probe: try the status fast path, then scan the candidate files. -/
def discover_unity_port (status : Option StatusContent)
    (hashed : List (Int × CandContent)) (legacy : Option CandContent)
    (probe : Int → Bool) : Int :=
  match statusFastPath status probe with
  | some p => p
  | none => scanCandidates probe (list_candidate_files hashed legacy) none

/-- First candidate with an integer port whose probe succeeds. -/
def firstSuccess (probe : Int → Bool) : List CandContent → Option Int
  | [] => none
  | .port p :: cs => if probe p then some p else firstSuccess probe cs
  | _ :: cs => firstSuccess probe cs

/-- First syntactically valid (integer) port declared by any candidate. -/
def firstDeclared : List CandContent → Option Int
  | [] => none
  | .port p :: _ => some p
  | _ :: cs => firstDeclared cs

end PortDiscovery

namespace UnityConnection

/-! ## Handshake (UnityConnection.connect) -/

/-- The marker required in the greeting to enter framed mode. -/
def framingMarker : List Char := "FRAMING=1".toList

/-- The minimal refusal payload sent to a peer that did not advertise framing. -/
def refusalPayload : List Byte := asciiBytes "Unity MCP requires FRAMING=1"

/-- Observable outcome of `connect` (after a successful TCP connect):
its return value, the final socket/framing state, the handshake bytes sent to
the peer, and whether the strict handshake raised a `ConnectionError`
internally (it is caught by `connect` itself, which then returns `False`). -/
structure ConnectOutput where
  returned : Bool
  sockOpen : Bool
  use_framing : Bool
  sentToPeer : List Byte
  raisedConnectionError : Bool
  deriving Repr, DecidableEq

/-- `connect`, given the greeting bytes read from the peer (a failed/empty
`recv` is the empty list): if the ASCII-decoded greeting contains `FRAMING=1`
the connection enters framed mode and `connect` returns `True`; otherwise a
framed refusal message is sent, a `ConnectionError` is raised and caught, the
socket is closed and reset to `None`, and `connect` returns `False`. -/
def connect (greeting : List Byte) : ConnectOutput :=
  let text := decodeAsciiIgnore greeting
  if listContainsSub framingMarker text then
    { returned := true, sockOpen := true, use_framing := true,
      sentToPeer := [], raisedConnectionError := false }
  else
    { returned := false, sockOpen := false, use_framing := false,
      sentToPeer := packU64BE refusalPayload.length ++ refusalPayload,
      raisedConnectionError := true }

end UnityConnection

namespace PortDiscovery

/-! ## Liveness probe (PortDiscovery._try_probe_unity_mcp) -/

def FRAME_HEADER_SIZE : Nat := 8

/-- Ceiling on a framed probe response length: 1 MiB. -/
def MAX_FRAME_SIZE : Nat := 1 <<< 20

/-- The pong marker looked for in probe replies: the bytes of
`"message":"pong"` including the quotes. -/
def pongMarker : List Byte := asciiBytes "\"message\":\"pong\""

/-- One result of `s.recv(512)` in the legacy probe loop. -/
inductive LegacyEvent where
  /-- `recv` raised `socket.timeout`: the loop breaks -/
  | timeoutEv
  /-- `recv` raised some other exception: the inner handler returns `False` -/
  | errEv
  /-- `recv` returned a chunk (the empty chunk means the peer closed) -/
  | chunk (bs : List Byte)

/-- Everything the network does during one probe: whether the TCP connect
succeeds, the greeting `recv` (which may raise), whether sending the ping
succeeds, the byte stream available after a framed ping, and the successive
`recv` results after a legacy ping (exhaustion of the list models a blocking
`recv` ending in `socket.timeout`). -/
structure ProbeScript where
  connectOk : Bool
  greeting : Except Unit (List Byte)
  sendOk : Bool
  framedReply : List Byte
  legacyEvents : List LegacyEvent

/-- The legacy accumulation loop: read ≤512-byte chunks while fewer than 1024
bytes were gathered, stopping on timeout, closed peer, or a chunk containing
the pong marker; `none` models a non-timeout `recv` exception. -/
def legacyCollect : List LegacyEvent → Nat → List (List Byte) → Option (List Byte)
  | [], _, acc => some acc.flatten
  | ev :: rest, total, acc =>
    if total < 1024 then
      match ev with
      | .timeoutEv => some acc.flatten
      | .errEv => none
      | .chunk [] => some acc.flatten
      | .chunk c =>
        if listContainsSub pongMarker c then some (acc ++ [c]).flatten
        else legacyCollect rest (total + c.length) (acc ++ [c])
    else some acc.flatten

/-- The framed arm of the probe: send the length-prefixed ping, read one
framed response rejecting oversized declared lengths (`resp_len` is inlined),
and look for the pong marker. -/
def framedProbe (sc : ProbeScript) : Bool :=
  if !sc.sendOk then false
  else
    match UnityConnection.readExact sc.framedReply FRAME_HEADER_SIZE with
    | none => false
    | some (hdr, rest) =>
      if UnityConnection.unpackU64BE hdr > MAX_FRAME_SIZE then false
      else
        match UnityConnection.readExact rest (UnityConnection.unpackU64BE hdr) with
        | none => false
        | some (data, _) => !data.isEmpty && listContainsSub pongMarker data

/-- The legacy arm of the probe: send the raw ping, gather a small bounded
number of bytes, and look for the pong marker. -/
def legacyProbe (sc : ProbeScript) : Bool :=
  if !sc.sendOk then false
  else
    match legacyCollect sc.legacyEvents 0 [] with
    | none => false
    | some data => !data.isEmpty && listContainsSub pongMarker data

/-- `_try_probe_unity_mcp`, as a function of the probe script. Every
exception path of the source maps to `false`: connect failure, a raising
greeting `recv`, a failed ping send, a short framed read, an oversized
declared frame length, and a raising legacy `recv`. It yields `true` only
when the gathered data is nonempty and contains the pong marker.
(The reader `_read_exact` of port_discovery.py is the same function as
`UnityConnection.readExact`; it is reused here.) -/
def _try_probe_unity_mcp (sc : ProbeScript) : Bool :=
  if !sc.connectOk then false
  else
    match sc.greeting with
    | .error _ => false
    | .ok g =>
      if listContainsSub UnityConnection.framingMarker (decodeAsciiIgnore g) then
        framedProbe sc
      else legacyProbe sc

end PortDiscovery

namespace PluginHub

/-! ## WebSocket hub (plugin_hub.py) -/

/-- Dictionary operations on the hub-wide `_pending` table, performed under
the hub lock; the trace of a dispatch records them in order. -/
inductive HubEvent where
  | insertPending (id : String)
  | sendExecute (id : String)
  | removePending (id : String)
  deriving Repr, DecidableEq

/-- What the awaited dispatch does: the `command_result` arrives and resolves
the future in time, `asyncio.wait_for` times out, or `websocket.send_json`
raises. -/
inductive DispatchOutcome where
  | resultArrived
  | timedOut
  | sendFailed
  deriving Repr, DecidableEq

/-- Errors `send_command` can raise to its caller. -/
inductive HubError where
  /-- `RuntimeError: Duplicate command id generated` -/
  | duplicateId
  /-- `asyncio.TimeoutError` out of `wait_for` -/
  | timeoutErr
  /-- the failure raised by `send_json` -/
  | sendErr
  deriving Repr, DecidableEq

/-- Observable outcome of one `PluginHub.send_command` dispatch: its
result, the final `_pending` key set, and the ordered trace of pending-table
operations. -/
structure DispatchResult where
  result : Except HubError Unit
  finalPending : List String
  events : List HubEvent
  deriving Repr

/-- `PluginHub.send_command`, given the pending-command ids present when the
dispatch takes the lock, the freshly generated `command_id`, and the outcome
of the awaited send: an already-present id raises `RuntimeError` before any
mutation; otherwise the entry is registered, the `execute` message sent, and
the `finally` block pops the entry exactly once on every exit path. -/
def send_command (pending : List String) (command_id : String)
    (outcome : DispatchOutcome) : DispatchResult :=
  if command_id ∈ pending then
    { result := .error .duplicateId, finalPending := pending, events := [] }
  else
    let p1 := pending ++ [command_id]
    match outcome with
    | .resultArrived =>
      { result := .ok (), finalPending := p1.erase command_id,
        events := [.insertPending command_id, .sendExecute command_id,
          .removePending command_id] }
    | .timedOut =>
      { result := .error .timeoutErr, finalPending := p1.erase command_id,
        events := [.insertPending command_id, .sendExecute command_id,
          .removePending command_id] }
    | .sendFailed =>
      { result := .error .sendErr, finalPending := p1.erase command_id,
        events := [.insertPending command_id, .sendExecute command_id,
          .removePending command_id] }

/-- `PluginHub._resolve_session_id`, with the registry abstracted as the hash
lookup `byHash` (`get_session_id_by_hash`) and the insertion-ordered session
id table `sessions` (`list_sessions().keys()`): a truthy descriptor that the
registry resolves is returned; otherwise the dispatch falls back to requiring
a nonempty session table and picking its first key
(`next(iter(sessions.keys()))`). -/
def _resolve_session_id (byHash : String → Option String) (sessions : List String)
    (unity_instance : Option String) : Except String String :=
  let fallback : Except String String :=
    match sessions with
    | [] => .error "No Unity plugins are currently connected"
    | s :: _ => .ok s
  match unity_instance with
  | none => fallback
  | some d =>
    if d = "" then fallback
    else
      match byHash d with
      | some sid => .ok sid
      | none => fallback

end PluginHub

/-! ## Reload-aware retry wrapper (unity_connection.py module level) -/

/-- The dictionary fields of a parsed Unity response that the reload-aware
wrapper inspects. -/
structure RespDict where
  state : Option String
  message : Option String
  error : Option String
  retry_after_ms : Option Int
  deriving Repr, DecidableEq

/-- A value returned by `UnityConnection.send_command` as the wrapper sees
it: a dict with the fields above, or any non-dict value. -/
inductive RespV where
  | dict (d : RespDict)
  | nondict
  deriving Repr, DecidableEq

/-- Python `a or b` over an optional string and a fallback: an absent or
empty (falsy) string yields the fallback. -/
def pyOrStr (a : Option String) (b : String) : String :=
  match a with
  | some s => if s = "" then b else s
  | none => b

/-- The characters of `"reload"`, the word searched for in reload-flavored
messages. -/
def reloadNeedle : List Char := "reload".toList

/-- `_is_reloading_response`: a dict whose `state` equals `"reloading"`, or
whose (message or error) text contains `"reload"` after lowercasing. -/
def _is_reloading_response (r : RespV) : Bool :=
  match r with
  | .nondict => false
  | .dict d =>
    if d.state == some "reloading" then true
    else listContainsSub reloadNeedle
      ((pyOrStr d.message (pyOrStr d.error "")).toList.map Char.toLower)

/-- `int(response.get("retry_after_ms", retry_ms))` for a dict response, or
`retry_ms` for a non-dict one. -/
def delayMsOf (retry_ms : Int) (r : RespV) : Int :=
  match r with
  | .dict d => d.retry_after_ms.getD retry_ms
  | .nondict => retry_ms

/-- `time.sleep(max(0.0, delay_ms / 1000.0))`: the seconds slept before one
retry. -/
def sleepSecondsOf (retry_ms : Int) (r : RespV) : ℚ :=
  max 0 ((delayMsOf retry_ms r : ℚ) / 1000)

/-- The `while _is_reloading_response(response) and retries < max_retries`
loop of `send_command_with_retry`, with `responses k` the response to the
k-th send (the initial send is k = 0) and the fuel argument bounding the
recursion (the entry point supplies enough for the loop to always hit its
own `retries < max_retries` bound first). Returns the final response and
the list of sleeps performed. -/
def retryGo (responses : Nat → RespV) (max_retries : Nat) (retry_ms : Int) :
    Nat → Nat → RespV × List ℚ
  | 0, k => (responses k, [])
  | fuel + 1, k =>
    if _is_reloading_response (responses k) && decide (k < max_retries) then
      let rest := retryGo responses max_retries retry_ms fuel (k + 1)
      (rest.1, sleepSecondsOf retry_ms (responses k) :: rest.2)
    else (responses k, [])

/-- `send_command_with_retry`: resolve the retry cap and delay from the
explicit arguments or the config (`getattr(config, "reload_max_retries", 40)`
and `getattr(config, "reload_retry_ms", 250)`), then run the reload retry
loop. -/
def send_command_with_retry (responses : Nat → RespV)
    (cfg_reload_max_retries : Option Nat) (cfg_reload_retry_ms : Option Int)
    (max_retries_arg : Option Nat) (retry_ms_arg : Option Int) : RespV × List ℚ :=
  retryGo responses (max_retries_arg.getD (cfg_reload_max_retries.getD 40))
    (retry_ms_arg.getD (cfg_reload_retry_ms.getD 250))
    (max_retries_arg.getD (cfg_reload_max_retries.getD 40) + 1) 0

namespace UnityConnection

/-! ## Retry loop of UnityConnection.send_command -/

/-- The config fields `send_command` consults. -/
structure Config where
  max_retries : Nat
  reload_retry_ms : Int
  deriving Repr, DecidableEq

/-- Classification-relevant shape of a caught exception: the recognized
builtin socket exception classes hit by the `isinstance` check, or any other
exception (carrying its message), plus its optional `errno` attribute. -/
inductive ExcKind where
  | connRefused
  | connReset
  | timeoutErr
  | generic (msg : String)
  deriving Repr, DecidableEq

structure Exc where
  kind : ExcKind
  errno : Option Int
  deriving Repr, DecidableEq

/-- Linux values of the errno constants named by the code. -/
def ECONNREFUSED : Int := 111
def ECONNRESET : Int := 104
def ETIMEDOUT : Int := 110

/-- The `fast_error` classification: an instance of
`ConnectionRefusedError`/`ConnectionResetError`/`TimeoutError`, or any
exception whose `errno` is `ECONNREFUSED`/`ECONNRESET`/`ETIMEDOUT`. -/
def fast_error (e : Exc) : Bool :=
  match e.kind with
  | .connRefused => true
  | .connReset => true
  | .timeoutErr => true
  | .generic _ =>
    e.errno == some ECONNREFUSED || e.errno == some ECONNRESET
      || e.errno == some ETIMEDOUT

/-- The latest `unity-mcp-status-*.json` snapshot as `read_status_file`
returns it: the truthiness of `status.get('reloading')` and whether
`status.get('reason') == 'reloading'`. -/
structure SCStatus where
  reloading : Bool
  reasonReloading : Bool
  deriving Repr, DecidableEq

/-- Truthiness of `status and status.get('reloading')` (a missing file or an
unreadable/falsy snapshot is `False`). -/
def statusReloadingTruthy : Option SCStatus → Bool
  | some s => s.reloading
  | none => false

/-- The preflight reload check:
`status and (status.get('reloading') or status.get('reason') == 'reloading')`. -/
def preflightReloading : Option SCStatus → Bool
  | some s => s.reloading || s.reasonReloading
  | none => false

/-- The backoff cap chosen per failure classification: 0.8 s when the latest
status reports reloading, 0.25 s for a fast-transient socket error, 3.0 s
otherwise. -/
def capFor (status : Option SCStatus) (e : Exc) : ℚ :=
  if statusReloadingTruthy status then 8/10
  else if fast_error e then 1/4
  else 3

/-- `sleep_s = min(cap, jitter * (2 ** attempt))`. -/
def sleepFor (status : Option SCStatus) (e : Exc) (jitterv : ℚ) (attempt : Nat) : ℚ :=
  min (capFor status e) (jitterv * 2 ^ attempt)

/-- The fields of a parsed Unity response envelope consulted by
`send_command`; the result payload is kept abstract in `R`. -/
structure UnityResp (R : Type) where
  status : Option String
  result : Option R
  error : Option String
  message : Option String

/-- What the network does on one attempt: `connect()` returns `False`, the
send/receive/parse raises, or a parsed response arrives. -/
inductive NetEvent (R : Type) where
  | connectFail
  | raised (e : Exc)
  | resp (r : UnityResp R)

/-- The possible non-raising return values of `send_command`. -/
inductive SCResult (R : Type) where
  /-- the structured no-parameters error dict returned before any attempt -/
  | noParamsErr
  /-- the structured preflight reloading hint dict -/
  | reloadingHint (retry_after_ms : Int)
  /-- the `{"message": "pong"}` dict of a successful ping -/
  | pongMsg
  /-- `resp.get('result', {})` of a successful response -/
  | value (r : R)

/-- `err = resp.get('error') or resp.get('message', 'Unknown Unity error')`. -/
def errTextOf {R : Type} (r : UnityResp R) : String :=
  pyOrStr r.error (r.message.getD "Unknown Unity error")

/-- One attempt body after connecting: build/send the payload and parse the
response. `isPong` models `resp.get('result', {}).get('message') == 'pong'`
on the abstract result payload; a response whose `status` is `"error"` raises
the host-reported error text inside the loop. -/
def attemptOutcome {R : Type} (command_type : String) (isPong : R → Bool)
    (emptyObj : R) (ev : NetEvent R) : Except Exc (SCResult R) :=
  match ev with
  | .connectFail => .error ⟨.generic "Could not connect to Unity", none⟩
  | .raised e => .error e
  | .resp r =>
    if command_type = "ping" then
      if r.status == some "success" && isPong (r.result.getD emptyObj) then
        .ok .pongMsg
      else .error ⟨.generic "Ping unsuccessful", none⟩
    else
      if r.status == some "error" then .error ⟨.generic (errTextOf r), none⟩
      else .ok (.value (r.result.getD emptyObj))

/-- Trace record of one failed attempt: the exception caught, the
unconditional socket close-and-drop, the port that re-discovery installed,
and — when this was not the final attempt — the status snapshot read during
backoff together with the seconds slept. -/
structure AttemptRec where
  exc : Exc
  sockDropped : Bool
  portAfter : Int
  backoff : Option (Option SCStatus × ℚ)
  deriving Repr, DecidableEq

/-- The `for attempt in range(attempts + 1)` loop of `send_command`: `k` is
the current attempt index and `fuel` the number of retries still allowed
(entry point: attempt 0 with `fuel = attempts`). A successful attempt
returns its value; a failed one closes and drops the socket, re-runs port
discovery, and — if retries remain — reads the status file, sleeps the
capped jittered backoff, and recurses; the final failure propagates its
exception. -/
def scGo {R : Type} (command_type : String) (isPong : R → Bool) (emptyObj : R)
    (events : Nat → NetEvent R) (statusAt : Nat → Option SCStatus)
    (jitter : Nat → ℚ) (discoverAt : Nat → Int) :
    Nat → Nat → Except Exc (SCResult R) × List AttemptRec
  | k, 0 =>
    match attemptOutcome command_type isPong emptyObj (events k) with
    | .ok v => (.ok v, [])
    | .error e =>
      (.error e,
        [{ exc := e, sockDropped := true, portAfter := discoverAt k,
           backoff := none }])
  | k, fuel + 1 =>
    match attemptOutcome command_type isPong emptyObj (events k) with
    | .ok v => (.ok v, [])
    | .error e =>
      let rest := scGo command_type isPong emptyObj events statusAt jitter
        discoverAt (k + 1) fuel
      (rest.1,
        { exc := e, sockDropped := true, portAfter := discoverAt k,
          backoff := some (statusAt k,
            sleepFor (statusAt k) e (jitter k) k) } :: rest.2)

/-- `UnityConnection.send_command`, as a function of the config, the command,
whether params were supplied, the preflight status snapshot, and the script
of per-attempt network events, per-backoff status snapshots, jitter draws,
and rediscovered ports: the guards run first (missing command type raises,
missing params returns a structured error, a reloading preflight returns the
structured hint), then the attempt loop runs with
`attempts = max(config.max_retries, 5)`. -/
def send_command {R : Type} (cfg : Config) (command_type : String)
    (paramsGiven : Bool) (preStatus : Option SCStatus)
    (events : Nat → NetEvent R) (statusAt : Nat → Option SCStatus)
    (jitter : Nat → ℚ) (discoverAt : Nat → Int)
    (isPong : R → Bool) (emptyObj : R) :
    Except Exc (SCResult R) × List AttemptRec :=
  if command_type = "" then
    (.error ⟨.generic "MCP call missing command_type", none⟩, [])
  else if !paramsGiven then (.ok .noParamsErr, [])
  else if preflightReloading preStatus then
    (.ok (.reloadingHint cfg.reload_retry_ms), [])
  else
    scGo command_type isPong emptyObj events statusAt jitter discoverAt 0
      (max cfg.max_retries 5)

end UnityConnection

namespace UnityInstanceMiddleware

/-! ## Per-call instance routing middleware (spec §4.5)

The module `unity_instance_middleware.py` is exercised by the repository's
tests and registered by its server, but its own source is not among the
provided files; the definitions below are reconstructed from the spec. -/

/-- Modelled from the spec: one connected instance as the resolver sees it —
its canonical `Name@hash` key, its hash, and (in local-socket mode) its
advertised port. `unity_instance_middleware.py` is missing from the sources. -/
structure PoolInstance where
  id : String
  hash : String
  port : Option Nat
  deriving Repr, DecidableEq

/-- Modelled from the spec: the per-caller routing state — the
session-persisted default instance key and the request-scoped active key.
`unity_instance_middleware.py` is missing from the sources. -/
structure Ctx where
  sessionInstance : Option String
  requestInstance : Option String
  deriving Repr, DecidableEq

/-- Whitespace-trim of a descriptor, as a character list. -/
def stripWs (s : String) : List Char :=
  ((s.toList.dropWhile Char.isWhitespace).reverse.dropWhile Char.isWhitespace).reverse

/-- Modelled from the spec: descriptor resolution rules (§4.5 a–c, first
match wins): exact match against a known `Name@hash` key; an all-decimal
string is a bare port looked up among connected instances (valid only in the
local stdio transport mode); otherwise a hash or hash prefix, erroring on
zero or several matches. `unity_instance_middleware.py` is missing from the
sources. -/
def resolveDescriptor (stdioMode : Bool) (instances : List PoolInstance)
    (d : String) : Except String String :=
  if instances.any (fun i => i.id == d) then .ok d
  else if !d.toList.isEmpty && d.toList.all Char.isDigit then
    if !stdioMode then
      .error "Port-number instance selection is not supported in HTTP transport mode"
    else
      match instances.find? (fun i => i.port == d.toNat?) with
      | some i => .ok i.id
      | none => .error ("No Unity instance found on port " ++ d)
  else
    match instances.filter (fun i => listStartsWith d.toList i.hash.toList) with
    | [i] => .ok i.id
    | [] => .error "No running Unity instance matches the descriptor"
    | _ => .error "Ambiguous instance descriptor"

/-- Modelled from the spec: the `set_active_instance` operation, the only
mutation of the session-persisted default.
`unity_instance_middleware.py` is missing from the sources. -/
def set_active_instance (ctx : Ctx) (key : String) : Ctx :=
  { ctx with sessionInstance := some key }

/-- Modelled from the spec: `_inject_unity_instance` — a per-call override
that is non-empty after trimming is resolved and written into request-scoped
state only; otherwise the session-persisted default is used, falling back to
auto-selecting a sole connected instance. The session-persisted default is
never mutated here. `unity_instance_middleware.py` is missing from the
sources. -/
def injectUnityInstance (stdioMode : Bool) (instances : List PoolInstance)
    (override : Option String) (ctx : Ctx) : Except String Ctx :=
  let fallThrough : Except String Ctx :=
    match ctx.sessionInstance with
    | some k => .ok { ctx with requestInstance := some k }
    | none =>
      match instances with
      | [i] => .ok { ctx with requestInstance := some i.id }
      | [] => .error "No Unity instances connected"
      | _ => .error "Multiple Unity instances connected; specify one"
  match override with
  | none => fallThrough
  | some s =>
    if (stripWs s).isEmpty then fallThrough
    else
      match resolveDescriptor stdioMode instances s with
      | .ok key => .ok { ctx with requestInstance := some key }
      | .error e => .error e

end UnityInstanceMiddleware

/-! ## Supporting lemmas for the framing proofs -/

theorem packU64BE_length (n : Nat) : (UnityConnection.packU64BE n).length = 8 := rfl

theorem unpack_pack_u64 (n : Nat) (h : n < 2 ^ 64) :
    UnityConnection.unpackU64BE (UnityConnection.packU64BE n) = n := by
  simp only [UnityConnection.packU64BE, UnityConnection.unpackU64BE, List.foldl]
  omega

theorem readExact_append (pre post : List Byte) (count : Nat)
    (h : pre.length = count) :
    UnityConnection.readExact (pre ++ post) count = some (pre, post) := by
  unfold UnityConnection.readExact
  rw [if_neg]
  · rw [List.take_left' h, List.drop_left' h]
  · simp [h]

theorem readExact_short (stream : List Byte) (count : Nat)
    (h : stream.length < count) :
    UnityConnection.readExact stream count = none := by
  unfold UnityConnection.readExact
  rw [if_pos h]

/-- C1: framed send followed by framed receive returns the identical payload
for any payload of 1..64 MiB bytes (leaving the remainder of the stream
untouched); a declared length of 0 or above 64 MiB is rejected with the bytes
after the header unread; and a stream that closes before delivering the
declared count yields a connection error, not a partial or empty result. -/
theorem frame_roundtrip (payload rest : List Byte)
    (h1 : 1 ≤ payload.length) (h2 : payload.length ≤ UnityConnection.MAX_FRAMED_LEN) :
    UnityConnection.receiveFramed (UnityConnection.framedSend payload ++ rest) =
      .ok payload rest
    ∧ (∀ tail, UnityConnection.receiveFramed (UnityConnection.packU64BE 0 ++ tail) =
        .invalidLength 0 tail)
    ∧ (∀ n tail, UnityConnection.MAX_FRAMED_LEN < n → n < 2 ^ 64 →
        UnityConnection.receiveFramed (UnityConnection.packU64BE n ++ tail) =
          .invalidLength n tail)
    ∧ (∀ cut, cut.length < payload.length →
        UnityConnection.receiveFramed (UnityConnection.packU64BE payload.length ++ cut) =
          .closedEarly) := by
  have hlt : payload.length < 2 ^ 64 := by
    have : UnityConnection.MAX_FRAMED_LEN < 2 ^ 64 := by decide
    omega
  refine ⟨?_, ?_, ?_, ?_⟩
  · unfold UnityConnection.receiveFramed UnityConnection.framedSend
    rw [List.append_assoc, readExact_append _ _ 8 (packU64BE_length _)]
    simp only [unpack_pack_u64 _ hlt]
    rw [if_neg (by omega), if_neg (by omega), readExact_append _ _ _ rfl]
  · intro tail
    unfold UnityConnection.receiveFramed
    rw [readExact_append _ _ 8 (packU64BE_length _)]
    simp only [unpack_pack_u64 0 (by decide)]
    simp
  · intro n tail hn hn64
    unfold UnityConnection.receiveFramed
    rw [readExact_append _ _ 8 (packU64BE_length _)]
    simp only [unpack_pack_u64 n hn64]
    rw [if_neg (by omega), if_pos hn]
  · intro cut hcut
    unfold UnityConnection.receiveFramed
    rw [readExact_append _ _ 8 (packU64BE_length _)]
    simp only [unpack_pack_u64 _ hlt]
    rw [if_neg (by omega), if_neg (by omega), readExact_short _ _ hcut]

/-- C1 witness: the round-trip theorem applied at the concrete payload
`[123, 125]` (the bytes of an empty JSON object) with remainder `[7]`. -/
theorem frame_roundtrip_witness :
    UnityConnection.receiveFramed
        (UnityConnection.framedSend [123, 125] ++ [7]) = .ok [123, 125] [7] :=
  (frame_roundtrip [123, 125] [7] (by decide) (by decide)).1

/-! ## Port discovery proofs -/

/-- Left-biased choice on options (Python: keep `first_seen_port` once set). -/
def orO (a b : Option Int) : Option Int :=
  match a with
  | some q => some q
  | none => b

theorem scanCandidates_eq (probe : Int → Bool) (cs : List PortDiscovery.CandContent)
    (fs : Option Int) :
    PortDiscovery.scanCandidates probe cs fs =
      match PortDiscovery.firstSuccess probe cs with
      | some p => p
      | none => (orO fs (PortDiscovery.firstDeclared cs)).getD PortDiscovery.DEFAULT_PORT := by
  induction cs generalizing fs with
  | nil =>
    cases fs <;>
      simp [PortDiscovery.scanCandidates, PortDiscovery.firstSuccess,
        PortDiscovery.firstDeclared, orO]
  | cons c cs ih =>
    cases c with
    | unreadable =>
      simpa [PortDiscovery.scanCandidates, PortDiscovery.firstSuccess,
        PortDiscovery.firstDeclared] using ih fs
    | noIntPort =>
      simpa [PortDiscovery.scanCandidates, PortDiscovery.firstSuccess,
        PortDiscovery.firstDeclared] using ih fs
    | port p =>
      by_cases hp : probe p
      · simp [PortDiscovery.scanCandidates, PortDiscovery.firstSuccess, hp]
      · cases fs with
        | none =>
          simpa [PortDiscovery.scanCandidates, PortDiscovery.firstSuccess,
            PortDiscovery.firstDeclared, hp, orO] using ih (some p)
        | some q =>
          simpa [PortDiscovery.scanCandidates, PortDiscovery.firstSuccess,
            PortDiscovery.firstDeclared, hp, orO] using ih (some q)

/-- C2 counterexample: the claim omits the status-file fast path. With the
latest status file naming the responsive port 7000, no per-instance file and
no legacy file, the claim says no port was parsed from any candidate so the
hard-coded default 6400 must be returned; the code returns 7000. -/
theorem discover_unity_port_status_counterexample :
    PortDiscovery.discover_unity_port (some ⟨some 7000⟩) [] none
        (fun p => p == 7000) = 7000
    ∧ (7000 : Int) ≠ 6400 := by decide

/-- C2 (amended): whenever the status fast path does not fire, discovery scans
the candidate registry files in order (per-instance files newest-first by
mtime, the legacy file last) and returns the first candidate whose declared
`unity_port` is an integer and whose probe succeeds; failing that, the first
syntactically valid port parsed; failing that, the default 6400. -/
theorem discover_unity_port_spec (status : Option PortDiscovery.StatusContent)
    (hashed : List (Int × PortDiscovery.CandContent))
    (legacy : Option PortDiscovery.CandContent) (probe : Int → Bool)
    (hfast : PortDiscovery.statusFastPath status probe = none) :
    PortDiscovery.discover_unity_port status hashed legacy probe =
      match PortDiscovery.firstSuccess probe
          (PortDiscovery.list_candidate_files hashed legacy) with
      | some p => p
      | none =>
        (PortDiscovery.firstDeclared
            (PortDiscovery.list_candidate_files hashed legacy)).getD
          PortDiscovery.DEFAULT_PORT := by
  unfold PortDiscovery.discover_unity_port
  rw [hfast]
  simpa [orO] using
    scanCandidates_eq probe (PortDiscovery.list_candidate_files hashed legacy) none

/-- C2 witness: the spec scenario — a legacy file declaring the unresponsive
port 6400 and a per-instance file declaring the responsive port 6500 —
resolved through the amended theorem: discovery returns 6500. -/
theorem discover_unity_port_spec_witness :
    PortDiscovery.discover_unity_port none [(10, .port 6500)]
        (some (.port 6400)) (fun p => p == 6500) = 6500 := by
  rw [discover_unity_port_spec none [(10, .port 6500)] (some (.port 6400))
    (fun p => p == 6500) rfl]
  decide

/-! ## Handshake proofs -/

/-- C7: `connect` enters framed mode iff the ASCII-decoded greeting contains
the substring `FRAMING=1`; it returns `True` exactly in framed mode (never
proceeding in legacy mode); and for every greeting lacking the marker it
sends the peer the minimal framed refusal message, raises (and catches) a
connection error, and returns `False` with the socket closed and reset. -/
theorem connect_requires_framing (greeting : List Byte) :
    ((UnityConnection.connect greeting).use_framing = true ↔
      listContainsSub UnityConnection.framingMarker (decodeAsciiIgnore greeting) = true)
    ∧ (UnityConnection.connect greeting).returned =
        (UnityConnection.connect greeting).use_framing
    ∧ (listContainsSub UnityConnection.framingMarker (decodeAsciiIgnore greeting) = false →
        UnityConnection.connect greeting =
          { returned := false, sockOpen := false, use_framing := false,
            sentToPeer := UnityConnection.packU64BE
                UnityConnection.refusalPayload.length ++ UnityConnection.refusalPayload,
            raisedConnectionError := true }) := by
  by_cases h : listContainsSub UnityConnection.framingMarker (decodeAsciiIgnore greeting) = true
  · simp [UnityConnection.connect, h]
  · simp only [Bool.not_eq_true] at h
    simp [UnityConnection.connect, h]

/-- C7 witness: the theorem applied to the greeting `"hello"`, which lacks
the marker: the handshake is refused. -/
theorem connect_requires_framing_witness :
    UnityConnection.connect (asciiBytes "hello") =
      { returned := false, sockOpen := false, use_framing := false,
        sentToPeer := UnityConnection.packU64BE
            UnityConnection.refusalPayload.length ++ UnityConnection.refusalPayload,
        raisedConnectionError := true } :=
  (connect_requires_framing (asciiBytes "hello")).2.2 (by decide)

/-! ## Liveness probe proofs -/

theorem framedProbe_eq_true (sc : PortDiscovery.ProbeScript)
    (h : PortDiscovery.framedProbe sc = true) :
    ∃ data, listContainsSub PortDiscovery.pongMarker data = true ∧ data ≠ [] ∧
      ∃ hdr rest rest2,
        UnityConnection.readExact sc.framedReply PortDiscovery.FRAME_HEADER_SIZE =
          some (hdr, rest) ∧
        UnityConnection.readExact rest (UnityConnection.unpackU64BE hdr) =
          some (data, rest2) := by
  unfold PortDiscovery.framedProbe at h
  split at h
  · exact absurd h (by simp)
  · split at h
    · exact absurd h (by simp)
    · rename_i hdr rest heq
      split at h
      · exact absurd h (by simp)
      · split at h
        · exact absurd h (by simp)
        · rename_i data rest2 heq2
          rw [Bool.and_eq_true] at h
          exact ⟨data, h.2, by simpa using h.1, hdr, rest, rest2, heq, heq2⟩

theorem legacyProbe_eq_true (sc : PortDiscovery.ProbeScript)
    (h : PortDiscovery.legacyProbe sc = true) :
    ∃ data, listContainsSub PortDiscovery.pongMarker data = true ∧ data ≠ [] ∧
      PortDiscovery.legacyCollect sc.legacyEvents 0 [] = some data := by
  unfold PortDiscovery.legacyProbe at h
  split at h
  · exact absurd h (by simp)
  · split at h
    · exact absurd h (by simp)
    · rename_i data heq
      rw [Bool.and_eq_true] at h
      exact ⟨data, h.2, by simpa using h.1, heq⟩

/-- C9: the probe is total at its boundary — every connect, read, decode or
protocol failure yields `false` (shown here for each failure input: failed
connect, raising greeting read, failed ping send, and in framed mode an
oversized declared response length), and it returns `true` only when the
gathered response data is nonempty and contains the pong marker. -/
theorem try_probe_safe (sc : PortDiscovery.ProbeScript) :
    (sc.connectOk = false → PortDiscovery._try_probe_unity_mcp sc = false)
    ∧ (∀ e, sc.greeting = .error e → PortDiscovery._try_probe_unity_mcp sc = false)
    ∧ (sc.sendOk = false → PortDiscovery._try_probe_unity_mcp sc = false)
    ∧ (∀ g hdr rest, sc.greeting = .ok g →
        listContainsSub UnityConnection.framingMarker (decodeAsciiIgnore g) = true →
        UnityConnection.readExact sc.framedReply PortDiscovery.FRAME_HEADER_SIZE =
          some (hdr, rest) →
        PortDiscovery.MAX_FRAME_SIZE < UnityConnection.unpackU64BE hdr →
        PortDiscovery._try_probe_unity_mcp sc = false)
    ∧ (PortDiscovery._try_probe_unity_mcp sc = true →
        ∃ data, listContainsSub PortDiscovery.pongMarker data = true ∧ data ≠ [] ∧
          ((∃ hdr rest rest2,
              UnityConnection.readExact sc.framedReply PortDiscovery.FRAME_HEADER_SIZE =
                some (hdr, rest) ∧
              UnityConnection.readExact rest (UnityConnection.unpackU64BE hdr) =
                some (data, rest2))
            ∨ PortDiscovery.legacyCollect sc.legacyEvents 0 [] = some data)) := by
  refine ⟨?_, ?_, ?_, ?_, ?_⟩
  · intro h
    simp [PortDiscovery._try_probe_unity_mcp, h]
  · intro e he
    simp [PortDiscovery._try_probe_unity_mcp, he]
  · intro h
    unfold PortDiscovery._try_probe_unity_mcp
    cases hg : sc.greeting with
    | error e => simp
    | ok g => simp [PortDiscovery.framedProbe, PortDiscovery.legacyProbe, h]
  · intro g hdr rest hg hmk hre hlen
    have hf : PortDiscovery.framedProbe sc = false := by
      unfold PortDiscovery.framedProbe
      rw [hre]
      simp [gt_iff_lt, hlen]
    unfold PortDiscovery._try_probe_unity_mcp
    rw [hg]
    simp [hmk, hf]
  · intro h
    unfold PortDiscovery._try_probe_unity_mcp at h
    split at h
    · exact absurd h (by simp)
    · split at h
      · exact absurd h (by simp)
      · split at h
        · obtain ⟨data, hp, hne, hdr, rest, rest2, h1, h2⟩ := framedProbe_eq_true sc h
          exact ⟨data, hp, hne, .inl ⟨hdr, rest, rest2, h1, h2⟩⟩
        · obtain ⟨data, hp, hne, hcol⟩ := legacyProbe_eq_true sc h
          exact ⟨data, hp, hne, .inr hcol⟩

/-- C9 witness: the theorem applied to a script whose TCP connect fails —
the probe reports `false` instead of propagating the failure. -/
theorem try_probe_safe_witness :
    PortDiscovery._try_probe_unity_mcp
      { connectOk := false, greeting := .ok [], sendOk := true,
        framedReply := [], legacyEvents := [] } = false :=
  (try_probe_safe _).1 rfl

/-! ## Plugin hub proofs -/

/-- C6: a dispatch whose generated id collides with a pending entry raises
the duplicate-id error with the pending table untouched (fatal, not
retried); a fresh id is inserted once and removed exactly once under the
lock on every exit path — result arrival, timeout, and send failure alike —
the final pending table equals the initial one, and neither the intermediate
nor the final pending table holds two entries with the same id. -/
theorem hub_send_command_pending (pending : List String) (cid : String)
    (outcome : PluginHub.DispatchOutcome) (hnd : pending.Nodup) :
    (cid ∈ pending →
      PluginHub.send_command pending cid outcome =
        { result := .error .duplicateId, finalPending := pending, events := [] })
    ∧ (cid ∉ pending →
        (PluginHub.send_command pending cid outcome).events.count
            (.removePending cid) = 1
        ∧ (PluginHub.send_command pending cid outcome).events.count
            (.insertPending cid) = 1
        ∧ (PluginHub.send_command pending cid outcome).finalPending = pending
        ∧ (pending ++ [cid]).Nodup
        ∧ (PluginHub.send_command pending cid outcome).finalPending.Nodup) := by
  constructor
  · intro hin
    simp [PluginHub.send_command, hin]
  · intro hout
    have herase : (pending ++ [cid]).erase cid = pending := by
      rw [List.erase_append_right _ hout]
      simp
    have hnd2 : (pending ++ [cid]).Nodup := by
      simp [List.nodup_append, hnd, hout]
    cases outcome <;>
      simp [PluginHub.send_command, hout, herase, hnd2, hnd, List.count_cons,
        beq_iff_eq]

/-- C6 witness: the theorem applied to the fresh id `"b"` over the pending
table `["a"]` with a result arriving: exactly one removal, table restored. -/
theorem hub_send_command_pending_witness :
    (PluginHub.send_command ["a"] "b" .resultArrived).events.count
        (.removePending "b") = 1
    ∧ (PluginHub.send_command ["a"] "b" .resultArrived).finalPending = ["a"] := by
  have h := (hub_send_command_pending ["a"] "b" .resultArrived (by decide)).2
    (by decide)
  exact ⟨h.1, h.2.2.1⟩

/-- C8: given a descriptor the registry identifies, `_resolve_session_id`
returns that session id; given no (or an empty) descriptor it fails iff no
session is connected and otherwise returns the first session id in the
stable insertion order of the session table. -/
theorem resolve_session_id_spec (byHash : String → Option String)
    (sessions : List String) (unity_instance : Option String) :
    (∀ d sid, unity_instance = some d → d ≠ "" → byHash d = some sid →
      PluginHub._resolve_session_id byHash sessions unity_instance = .ok sid)
    ∧ (unity_instance = none ∨ unity_instance = some "" →
        ((∃ e, PluginHub._resolve_session_id byHash sessions unity_instance =
            .error e) ↔ sessions = [])
        ∧ ∀ s rest, sessions = s :: rest →
            PluginHub._resolve_session_id byHash sessions unity_instance = .ok s) := by
  constructor
  · intro d sid hinst hne hhash
    simp [PluginHub._resolve_session_id, hinst, hne, hhash]
  · intro hinst
    have hfb : PluginHub._resolve_session_id byHash sessions unity_instance =
        (match sessions with
          | [] => .error "No Unity plugins are currently connected"
          | s :: _ => .ok s) := by
      rcases hinst with h | h <;> simp [PluginHub._resolve_session_id, h]
    rw [hfb]
    cases sessions with
    | nil =>
      refine ⟨by simp, ?_⟩
      intro s rest heq
      exact absurd heq (by simp)
    | cons s rest =>
      refine ⟨by simp, ?_⟩
      intro s' rest' heq
      simp at heq
      simp [heq.1]

/-- C8 witness: the theorem applied to a registry that maps `"abc"` to
`"sess-1"`, with two connected sessions and descriptor `"abc"`. -/
theorem resolve_session_id_spec_witness :
    PluginHub._resolve_session_id
        (fun d => if d = "abc" then some "sess-1" else none) ["s0", "s1"]
        (some "abc") = .ok "sess-1" :=
  (resolve_session_id_spec _ _ _).1 "abc" "sess-1" rfl (by decide) (by simp)

/-! ## Reload-aware retry wrapper proofs -/

theorem retryGo_length (responses : Nat → RespV) (maxR : Nat) (ms : Int) :
    ∀ fuel k, (retryGo responses maxR ms fuel k).2.length ≤ maxR - k := by
  intro fuel
  induction fuel with
  | zero => intro k; simp [retryGo]
  | succ fuel ih =>
    intro k
    unfold retryGo
    split
    · rename_i hcond
      rw [Bool.and_eq_true, decide_eq_true_eq] at hcond
      have h := ih (k + 1)
      simp only [List.length_cons]
      omega
    · simp

theorem retryGo_first_ready (responses : Nat → RespV) (maxR : Nat) (ms : Int) :
    ∀ fuel k m, k ≤ m → m ≤ maxR → m < fuel + k →
      (∀ j, k ≤ j → j < m → _is_reloading_response (responses j) = true) →
      _is_reloading_response (responses m) = false →
      retryGo responses maxR ms fuel k =
        (responses m,
          (List.range' k (m - k)).map (fun j => sleepSecondsOf ms (responses j))) := by
  intro fuel
  induction fuel with
  | zero => intro k m h1 h2 h3 hall hm; omega
  | succ fuel ih =>
    intro k m h1 h2 h3 hall hm
    rcases Nat.eq_or_lt_of_le h1 with heq | hlt
    · subst heq
      unfold retryGo
      rw [hm]
      simp
    · have hrel : _is_reloading_response (responses k) = true := hall k le_rfl hlt
      have hklt : k < maxR := lt_of_lt_of_le hlt h2
      have hcond : (_is_reloading_response (responses k)
          && decide (k < maxR)) = true := by
        rw [hrel]
        simpa using hklt
      unfold retryGo
      rw [hcond]
      have hrec := ih (k + 1) m hlt h2 (by omega)
        (fun j hj1 hj2 => hall j (by omega) hj2) hm
      have hrange : m - k = (m - (k + 1)) + 1 := by omega
      rw [hrange, List.range'_succ]
      simp [hrec]

theorem retryGo_all_reloading (responses : Nat → RespV) (maxR : Nat) (ms : Int) :
    ∀ fuel k, k ≤ maxR → maxR < fuel + k →
      (∀ j, k ≤ j → j ≤ maxR → _is_reloading_response (responses j) = true) →
      retryGo responses maxR ms fuel k =
        (responses maxR,
          (List.range' k (maxR - k)).map (fun j => sleepSecondsOf ms (responses j))) := by
  intro fuel
  induction fuel with
  | zero => intro k h1 h2 hall; omega
  | succ fuel ih =>
    intro k h1 h2 hall
    rcases Nat.eq_or_lt_of_le h1 with heq | hlt
    · subst heq
      unfold retryGo
      have hcond : (_is_reloading_response (responses k)
          && decide (k < k)) = false := by simp
      rw [hcond]
      simp
    · have hrel : _is_reloading_response (responses k) = true :=
        hall k le_rfl (le_of_lt hlt)
      have hcond : (_is_reloading_response (responses k)
          && decide (k < maxR)) = true := by
        rw [hrel]
        simpa using hlt
      unfold retryGo
      rw [hcond]
      have hrec := ih (k + 1) hlt (by omega)
        (fun j hj1 hj2 => hall j (by omega) hj2)
      have hrange : maxR - k = (maxR - (k + 1)) + 1 := by omega
      rw [hrange, List.range'_succ]
      simp [hrec]

/-- C4: `send_command_with_retry` re-sends the same command while the parsed
response is a reload response, performing at most the configured retry cap
(default 40) of retries independent of the transport-level retry count; each
retry is preceded by the sleep the code derives from the response's
advertised `retry_after_ms` (or the configured default, 250 ms); the first
non-reloading response is returned unchanged; and when every response is a
reload response the final one — the response of the last re-send at the cap —
is surfaced. -/
theorem send_command_with_retry_spec (responses : Nat → RespV)
    (cfgR : Option Nat) (cfgMs : Option Int) (argR : Option Nat) (argMs : Option Int) :
    ((send_command_with_retry responses cfgR cfgMs argR argMs).2.length
        ≤ argR.getD (cfgR.getD 40))
    ∧ (∀ m, m ≤ argR.getD (cfgR.getD 40) →
        (∀ j, j < m → _is_reloading_response (responses j) = true) →
        _is_reloading_response (responses m) = false →
        send_command_with_retry responses cfgR cfgMs argR argMs =
          (responses m, (List.range' 0 m).map
            (fun j => sleepSecondsOf (argMs.getD (cfgMs.getD 250)) (responses j))))
    ∧ ((∀ j, j ≤ argR.getD (cfgR.getD 40) →
          _is_reloading_response (responses j) = true) →
        send_command_with_retry responses cfgR cfgMs argR argMs =
          (responses (argR.getD (cfgR.getD 40)),
            (List.range' 0 (argR.getD (cfgR.getD 40))).map
              (fun j => sleepSecondsOf (argMs.getD (cfgMs.getD 250)) (responses j)))) := by
  refine ⟨?_, ?_, ?_⟩
  · have h := retryGo_length responses (argR.getD (cfgR.getD 40))
      (argMs.getD (cfgMs.getD 250)) (argR.getD (cfgR.getD 40) + 1) 0
    unfold send_command_with_retry
    simpa using h
  · intro m hm hall hready
    unfold send_command_with_retry
    have h := retryGo_first_ready responses (argR.getD (cfgR.getD 40))
      (argMs.getD (cfgMs.getD 250)) (argR.getD (cfgR.getD 40) + 1) 0 m
      (Nat.zero_le m) hm (by omega) (fun j hj1 hj2 => hall j hj2) hready
    simpa using h
  · intro hall
    unfold send_command_with_retry
    have h := retryGo_all_reloading responses (argR.getD (cfgR.getD 40))
      (argMs.getD (cfgMs.getD 250)) (argR.getD (cfgR.getD 40) + 1) 0
      (Nat.zero_le _) (by omega) (fun j hj1 hj2 => hall j hj2)
    simpa using h

/-- C4 witness: cap 2 passed explicitly, default delay 250 ms, every
response a reload response: the wrapper retries twice, sleeping 1/4 s before
each retry, and surfaces the final reload response. -/
theorem send_command_with_retry_spec_witness :
    send_command_with_retry
        (fun _ => .dict ⟨some "reloading", none, none, none⟩)
        none none (some 2) none =
      (.dict ⟨some "reloading", none, none, none⟩, [1/4, 1/4]) := by
  rw [(send_command_with_retry_spec
      (fun _ => .dict ⟨some "reloading", none, none, none⟩)
      none none (some 2) none).2.2 (fun j hj => rfl)]
  norm_num [sleepSecondsOf, delayMsOf, List.range']

/-! ## send_command retry loop proofs -/

theorem scGo_backoff_bound {R : Type} (ct : String) (isPong : R → Bool)
    (emptyObj : R) (events : Nat → UnityConnection.NetEvent R)
    (statusAt : Nat → Option UnityConnection.SCStatus)
    (jitter : Nat → ℚ) (discoverAt : Nat → Int) :
    ∀ fuel k, ∀ rec ∈ (UnityConnection.scGo ct isPong emptyObj events statusAt
        jitter discoverAt k fuel).2,
      ∀ st s, rec.backoff = some (st, s) →
        s ≤ UnityConnection.capFor st rec.exc := by
  intro fuel
  induction fuel with
  | zero =>
    intro k rec hrec st s hb
    unfold UnityConnection.scGo at hrec
    cases hout : UnityConnection.attemptOutcome ct isPong emptyObj (events k) with
    | ok v =>
      rw [hout] at hrec
      simp at hrec
    | error e =>
      rw [hout] at hrec
      simp at hrec
      rw [hrec] at hb
      simp at hb
  | succ fuel ih =>
    intro k rec hrec st s hb
    unfold UnityConnection.scGo at hrec
    cases hout : UnityConnection.attemptOutcome ct isPong emptyObj (events k) with
    | ok v =>
      rw [hout] at hrec
      simp at hrec
    | error e =>
      rw [hout] at hrec
      simp only [List.mem_cons] at hrec
      rcases hrec with hrec | hrec
      · rw [hrec] at hb ⊢
        simp only [Option.some.injEq, Prod.mk.injEq] at hb
        rw [← hb.1, ← hb.2]
        exact min_le_left _ _
      · exact ih (k + 1) rec hrec st s hb

theorem scGo_length_le {R : Type} (ct : String) (isPong : R → Bool)
    (emptyObj : R) (events : Nat → UnityConnection.NetEvent R)
    (statusAt : Nat → Option UnityConnection.SCStatus)
    (jitter : Nat → ℚ) (discoverAt : Nat → Int) :
    ∀ fuel k, (UnityConnection.scGo ct isPong emptyObj events statusAt jitter
        discoverAt k fuel).2.length ≤ fuel + 1 := by
  intro fuel
  induction fuel with
  | zero =>
    intro k
    unfold UnityConnection.scGo
    cases UnityConnection.attemptOutcome ct isPong emptyObj (events k) <;> simp
  | succ fuel ih =>
    intro k
    unfold UnityConnection.scGo
    cases UnityConnection.attemptOutcome ct isPong emptyObj (events k) with
    | ok v => simp
    | error e =>
      have h := ih (k + 1)
      simp only [List.length_cons]
      omega

theorem scGo_zero {R : Type} (ct : String) (isPong : R → Bool) (emptyObj : R)
    (events : Nat → UnityConnection.NetEvent R)
    (statusAt : Nat → Option UnityConnection.SCStatus)
    (jitter : Nat → ℚ) (discoverAt : Nat → Int) (k : Nat) :
    UnityConnection.scGo ct isPong emptyObj events statusAt jitter discoverAt k 0 =
      match UnityConnection.attemptOutcome ct isPong emptyObj (events k) with
      | .ok v => (.ok v, [])
      | .error e =>
        (.error e,
          [{ exc := e, sockDropped := true, portAfter := discoverAt k,
             backoff := none }]) := rfl

theorem scGo_succ {R : Type} (ct : String) (isPong : R → Bool) (emptyObj : R)
    (events : Nat → UnityConnection.NetEvent R)
    (statusAt : Nat → Option UnityConnection.SCStatus)
    (jitter : Nat → ℚ) (discoverAt : Nat → Int) (k fuel : Nat) :
    UnityConnection.scGo ct isPong emptyObj events statusAt jitter discoverAt k
        (fuel + 1) =
      match UnityConnection.attemptOutcome ct isPong emptyObj (events k) with
      | .ok v => (.ok v, [])
      | .error e =>
        ((UnityConnection.scGo ct isPong emptyObj events statusAt jitter
            discoverAt (k + 1) fuel).1,
          { exc := e, sockDropped := true, portAfter := discoverAt k,
            backoff := some (statusAt k,
              UnityConnection.sleepFor (statusAt k) e (jitter k) k) } ::
            (UnityConnection.scGo ct isPong emptyObj events statusAt jitter
              discoverAt (k + 1) fuel).2) := rfl

theorem scGo_error_last {R : Type} (ct : String) (isPong : R → Bool)
    (emptyObj : R) (events : Nat → UnityConnection.NetEvent R)
    (statusAt : Nat → Option UnityConnection.SCStatus)
    (jitter : Nat → ℚ) (discoverAt : Nat → Int) :
    ∀ fuel k e, (UnityConnection.scGo ct isPong emptyObj events statusAt jitter
        discoverAt k fuel).1 = .error e →
      ∃ rec, (UnityConnection.scGo ct isPong emptyObj events statusAt jitter
          discoverAt k fuel).2.getLast? = some rec ∧ rec.exc = e ∧
        (UnityConnection.scGo ct isPong emptyObj events statusAt jitter
          discoverAt k fuel).2.length = fuel + 1 := by
  intro fuel
  induction fuel with
  | zero =>
    intro k e he
    rw [scGo_zero] at he ⊢
    cases hout : UnityConnection.attemptOutcome ct isPong emptyObj (events k) with
    | ok v =>
      rw [hout] at he
      simp at he
    | error e' =>
      rw [hout] at he
      dsimp only at he ⊢
      have heq : e' = e := by simpa using he
      subst heq
      exact ⟨_, rfl, rfl, rfl⟩
  | succ fuel ih =>
    intro k e he
    rw [scGo_succ] at he ⊢
    cases hout : UnityConnection.attemptOutcome ct isPong emptyObj (events k) with
    | ok v =>
      rw [hout] at he
      simp at he
    | error e' =>
      rw [hout] at he
      dsimp only at he ⊢
      obtain ⟨rec, h1, h2, h3⟩ := ih (k + 1) e he
      have hne : (UnityConnection.scGo ct isPong emptyObj events statusAt jitter
          discoverAt (k + 1) fuel).2 ≠ [] := by
        intro hnil
        rw [hnil] at h3
        simp at h3
      refine ⟨rec, ?_, h2, ?_⟩
      · cases hr2 : (UnityConnection.scGo ct isPong emptyObj events statusAt
            jitter discoverAt (k + 1) fuel).2 with
        | nil => exact absurd hr2 hne
        | cons x xs =>
          rw [List.getLast?_cons_cons]
          rw [hr2] at h1
          exact h1
      · simp only [List.length_cons, h3]

theorem scGo_all_error {R : Type} (ct : String) (isPong : R → Bool)
    (emptyObj : R) (events : Nat → UnityConnection.NetEvent R)
    (statusAt : Nat → Option UnityConnection.SCStatus)
    (jitter : Nat → ℚ) (discoverAt : Nat → Int)
    (hall : ∀ j, ∃ e, UnityConnection.attemptOutcome ct isPong emptyObj
        (events j) = .error e) :
    ∀ fuel k, ∃ e, (UnityConnection.scGo ct isPong emptyObj events statusAt
        jitter discoverAt k fuel).1 = .error e := by
  intro fuel
  induction fuel with
  | zero =>
    intro k
    obtain ⟨e, he⟩ := hall k
    exact ⟨e, by unfold UnityConnection.scGo; rw [he]⟩
  | succ fuel ih =>
    intro k
    obtain ⟨e, he⟩ := hall k
    obtain ⟨e', he'⟩ := ih (k + 1)
    exact ⟨e', by unfold UnityConnection.scGo; rw [he]; simpa using he'⟩

/-- C5: on every send/receive failure inside `send_command`, the seconds
slept before the next attempt never exceed the cap chosen by classifying the
failure against the status snapshot read at that backoff — 0.8 s when it
reports reloading, 0.25 s for a fast-transient socket error (refused, reset,
or timeout), 3.0 s otherwise (`capFor`); the command is attempted at most
`max(config.max_retries, 5) + 1` times in total (the first attempt plus at
most `max(config.max_retries, 5)` retries); and when every attempt fails,
the exception of the final attempt is the one propagated to the caller. -/
theorem send_command_backoff_bounds {R : Type} (cfg : UnityConnection.Config)
    (ct : String) (preStatus : Option UnityConnection.SCStatus)
    (events : Nat → UnityConnection.NetEvent R)
    (statusAt : Nat → Option UnityConnection.SCStatus)
    (jitter : Nat → ℚ) (discoverAt : Nat → Int)
    (isPong : R → Bool) (emptyObj : R)
    (hct : ct ≠ "") (hpre : UnityConnection.preflightReloading preStatus = false) :
    (∀ rec ∈ (UnityConnection.send_command cfg ct true preStatus events statusAt
        jitter discoverAt isPong emptyObj).2,
      ∀ st s, rec.backoff = some (st, s) →
        s ≤ UnityConnection.capFor st rec.exc)
    ∧ (UnityConnection.send_command cfg ct true preStatus events statusAt
        jitter discoverAt isPong emptyObj).2.length ≤ max cfg.max_retries 5 + 1
    ∧ ∀ e, (UnityConnection.send_command cfg ct true preStatus events statusAt
        jitter discoverAt isPong emptyObj).1 = .error e →
      ∃ rec, (UnityConnection.send_command cfg ct true preStatus events statusAt
          jitter discoverAt isPong emptyObj).2.getLast? = some rec ∧
        rec.exc = e ∧
        (UnityConnection.send_command cfg ct true preStatus events statusAt
          jitter discoverAt isPong emptyObj).2.length = max cfg.max_retries 5 + 1 := by
  have hsc : UnityConnection.send_command cfg ct true preStatus events statusAt
      jitter discoverAt isPong emptyObj =
      UnityConnection.scGo ct isPong emptyObj events statusAt jitter discoverAt 0
        (max cfg.max_retries 5) := by
    simp [UnityConnection.send_command, hct, hpre]
  rw [hsc]
  exact ⟨scGo_backoff_bound ct isPong emptyObj events statusAt jitter discoverAt _ 0,
    scGo_length_le ct isPong emptyObj events statusAt jitter discoverAt _ 0,
    fun e he => scGo_error_last ct isPong emptyObj events statusAt jitter
      discoverAt _ 0 e he⟩

/-- C5 witness: the theorem applied with `max_retries = 0` (so five retries
are still performed) against a host that never accepts the connection: at
most six attempt records are produced. -/
theorem send_command_backoff_bounds_witness :
    (UnityConnection.send_command (R := Unit) ⟨0, 250⟩ "manage_scene" true none
        (fun _ => .connectFail) (fun _ => none) (fun _ => 1/5) (fun _ => 6400)
        (fun _ => false) ()).2.length ≤ max 0 5 + 1 :=
  (send_command_backoff_bounds ⟨0, 250⟩ "manage_scene" none
    (fun _ => .connectFail) (fun _ => none) (fun _ => 1/5) (fun _ => 6400)
    (fun _ => false) () (by decide) rfl).2.1

/-- C10: a well-formed response whose `status` field is `"error"` on the
first attempt raises inside the attempt loop and is treated exactly like a
transport failure: the trace begins with a record carrying the host-reported
error text, whose socket was closed and dropped, whose port was re-discovered,
and which backed off for a retry rather than returning the error result to
the caller on first receipt; and when every attempt yields such an
error-status response, the identical command is re-sent up to the full retry
budget and an error is finally raised. -/
theorem send_command_error_status_is_retried {R : Type}
    (cfg : UnityConnection.Config) (ct : String)
    (preStatus : Option UnityConnection.SCStatus)
    (events : Nat → UnityConnection.NetEvent R)
    (statusAt : Nat → Option UnityConnection.SCStatus)
    (jitter : Nat → ℚ) (discoverAt : Nat → Int)
    (isPong : R → Bool) (emptyObj : R) (r0 : UnityConnection.UnityResp R)
    (hct : ct ≠ "") (hping : ct ≠ "ping")
    (hpre : UnityConnection.preflightReloading preStatus = false)
    (h0 : events 0 = .resp r0) (hst : r0.status = some "error") :
    (∃ rec rest,
        (UnityConnection.send_command cfg ct true preStatus events statusAt
          jitter discoverAt isPong emptyObj).2 = rec :: rest ∧
        rec.exc = ⟨.generic (UnityConnection.errTextOf r0), none⟩ ∧
        rec.sockDropped = true ∧ rec.portAfter = discoverAt 0 ∧
        rec.backoff.isSome = true)
    ∧ ((∀ k rk, events k = .resp rk → rk.status = some "error") →
        ∃ e, (UnityConnection.send_command cfg ct true preStatus events statusAt
            jitter discoverAt isPong emptyObj).1 = .error e ∧
          (UnityConnection.send_command cfg ct true preStatus events statusAt
            jitter discoverAt isPong emptyObj).2.length
            = max cfg.max_retries 5 + 1) := by
  have hsc : UnityConnection.send_command cfg ct true preStatus events statusAt
      jitter discoverAt isPong emptyObj =
      UnityConnection.scGo ct isPong emptyObj events statusAt jitter discoverAt 0
        (max cfg.max_retries 5) := by
    simp [UnityConnection.send_command, hct, hpre]
  have hout : UnityConnection.attemptOutcome ct isPong emptyObj (events 0) =
      .error ⟨.generic (UnityConnection.errTextOf r0), none⟩ := by
    rw [h0]
    simp [UnityConnection.attemptOutcome, hping, hst]
  obtain ⟨m, hm⟩ : ∃ m, max cfg.max_retries 5 = m + 1 :=
    ⟨max cfg.max_retries 5 - 1, by omega⟩
  constructor
  · rw [hsc, hm]
    unfold UnityConnection.scGo
    rw [hout]
    exact ⟨_, _, rfl, rfl, rfl, rfl, rfl⟩
  · intro hallresp
    have hall : ∀ j, ∃ e, UnityConnection.attemptOutcome ct isPong emptyObj
        (events j) = .error e := by
      intro j
      cases hev : events j with
      | connectFail =>
        exact ⟨⟨.generic "Could not connect to Unity", none⟩,
          by simp [UnityConnection.attemptOutcome]⟩
      | raised e => exact ⟨e, by simp [UnityConnection.attemptOutcome]⟩
      | resp rk =>
        refine ⟨⟨.generic (UnityConnection.errTextOf rk), none⟩, ?_⟩
        have hrk := hallresp j rk hev
        simp [UnityConnection.attemptOutcome, hping, hrk]
    rw [hsc]
    obtain ⟨e, he⟩ := scGo_all_error ct isPong emptyObj events statusAt jitter
      discoverAt hall (max cfg.max_retries 5) 0
    obtain ⟨rec, h1, h2, h3⟩ := scGo_error_last ct isPong emptyObj events
      statusAt jitter discoverAt (max cfg.max_retries 5) 0 e he
    exact ⟨e, he, h3⟩

/-- C10 witness: the theorem applied to a host that answers every attempt
with `{"status": "error", "error": "boom"}`: the full budget of six attempts
is spent and an error is raised instead of the error dict being returned. -/
theorem send_command_error_status_is_retried_witness :
    ∃ e, (UnityConnection.send_command (R := Unit) ⟨0, 250⟩ "manage_scene" true
        none (fun _ => .resp ⟨some "error", none, some "boom", none⟩)
        (fun _ => none) (fun _ => 1/5) (fun _ => 6400)
        (fun _ => false) ()).1 = .error e ∧
      (UnityConnection.send_command (R := Unit) ⟨0, 250⟩ "manage_scene" true
        none (fun _ => .resp ⟨some "error", none, some "boom", none⟩)
        (fun _ => none) (fun _ => 1/5) (fun _ => 6400)
        (fun _ => false) ()).2.length = max 0 5 + 1 :=
  (send_command_error_status_is_retried ⟨0, 250⟩ "manage_scene" none
    (fun _ => .resp ⟨some "error", none, some "boom", none⟩)
    (fun _ => none) (fun _ => 1/5) (fun _ => 6400) (fun _ => false) ()
    ⟨some "error", none, some "boom", none⟩
    (by decide) (by decide) rfl rfl rfl).2
    (fun k rk h => by injection h with h2; rw [← h2])

/-! ## Instance middleware proofs -/

/-- C3: with session default `D` persisted and a per-call override resolving
to `O`, the override routes only that single call to `O` — the
session-persisted default remains `D` — and the next call made without an
override resolves to `D` again (spec-modelled:
`unity_instance_middleware.py` is not among the provided sources). -/
theorem inline_override_does_not_persist (stdioMode : Bool)
    (instances : List UnityInstanceMiddleware.PoolInstance)
    (D O ovr : String) (ctx : UnityInstanceMiddleware.Ctx)
    (hsess : ctx.sessionInstance = some D)
    (htrim : (UnityInstanceMiddleware.stripWs ovr).isEmpty = false)
    (hres : UnityInstanceMiddleware.resolveDescriptor stdioMode instances ovr =
      .ok O) :
    ∃ ctx1, UnityInstanceMiddleware.injectUnityInstance stdioMode instances
        (some ovr) ctx = .ok ctx1
      ∧ ctx1.requestInstance = some O
      ∧ ctx1.sessionInstance = some D
      ∧ UnityInstanceMiddleware.injectUnityInstance stdioMode instances none
          ctx1 = .ok { ctx1 with requestInstance := some D } := by
  refine ⟨{ ctx with requestInstance := some O }, ?_, rfl, hsess, ?_⟩
  · simp [UnityInstanceMiddleware.injectUnityInstance, htrim, hres]
  · simp [UnityInstanceMiddleware.injectUnityInstance, hsess]

/-- C3 witness: the spec scenario — persist `ProjA@aaa111`, call with
override `bbb222` (resolving to `ProjB@bbb222`), then call again with no
override: the active instance reverts to `ProjA@aaa111`. -/
theorem inline_override_does_not_persist_witness :
    ∃ ctx1, UnityInstanceMiddleware.injectUnityInstance true
        [⟨"ProjA@aaa111", "aaa111", none⟩, ⟨"ProjB@bbb222", "bbb222", none⟩]
        (some "bbb222") ⟨some "ProjA@aaa111", none⟩ = .ok ctx1
      ∧ ctx1.requestInstance = some "ProjB@bbb222"
      ∧ ctx1.sessionInstance = some "ProjA@aaa111"
      ∧ UnityInstanceMiddleware.injectUnityInstance true
          [⟨"ProjA@aaa111", "aaa111", none⟩, ⟨"ProjB@bbb222", "bbb222", none⟩]
          none ctx1 = .ok { ctx1 with requestInstance := some "ProjA@aaa111" } :=
  inline_override_does_not_persist true
    [⟨"ProjA@aaa111", "aaa111", none⟩, ⟨"ProjB@bbb222", "bbb222", none⟩]
    "ProjA@aaa111" "ProjB@bbb222" "bbb222" ⟨some "ProjA@aaa111", none⟩
    rfl rfl rfl
